import Mathlib

/-!
Verification development for the dmarquees daemon (src/dmarquees.c, src/helpers.c).

The definitions below are a shallow embedding of the C sources:
pure helpers become Lean functions, the DRM/ioctl layer is modelled as an
explicit kernel state (DRM master arbitration) or as Boolean outcome oracles
(ioctl success/failure), and the stateful fragments of main() become explicit
state-passing step functions.  File-system facts (does a PNG exist, does it
decode, what does an ini file contain) are passed in as environments, since
they are external inputs of the program.
-/

namespace Dmarquees

/-! ## Constants from dmarquees.c -/

def RA_INIT_HOLD_SEC : Int := 5

def DEF_MARQUEE_NAME : String := "RetroPieMarquee"

def DEF_RA_MARQUEE_NAME : String := "RetroArch_logo"

def DEF_SA_MARQUEE_NAME : String := "MAMELogoR"

/-! ## Enums from helpers.h / helpers.c

helpers.c's toCommandType also returns CMD_RESET, so the command enum here
includes it (helpers.c is the authority for the classification function). -/

inductive FrontendMode
  | eNA
  | eSA
  | eRA
deriving DecidableEq

inductive CommandType
  | CMD_EXIT
  | CMD_CLEAR
  | CMD_RA
  | CMD_SA
  | CMD_NA
  | CMD_RESET
  | CMD_ROM
deriving DecidableEq

/-- helpers.c toCommandType: a chain of case-sensitive strcmp comparisons;
anything unmatched is CMD_ROM. -/
def toCommandType (s : String) : CommandType :=
  if s = "EXIT" then CommandType.CMD_EXIT
  else if s = "CLEAR" then CommandType.CMD_CLEAR
  else if s = "RA" then CommandType.CMD_RA
  else if s = "SA" then CommandType.CMD_SA
  else if s = "NA" then CommandType.CMD_NA
  else if s = "RESET" then CommandType.CMD_RESET
  else CommandType.CMD_ROM

/-- dmarquees.c default_marquee_name_for: default image name per frontend mode. -/
def default_marquee_name_for (m : FrontendMode) : String :=
  match m with
  | FrontendMode.eSA => DEF_SA_MARQUEE_NAME
  | FrontendMode.eRA => DEF_RA_MARQUEE_NAME
  | FrontendMode.eNA => DEF_MARQUEE_NAME

/-! ## game_has_multiple_screens (helpers.c)

The ini file is modelled as `Option (List String)`: `none` when fopen fails,
otherwise the list of lines fgets would return. -/

/-- C isspace over the default locale (the whitespace characters of ASCII). -/
def c_isspace (c : Char) : Bool :=
  c = ' ' || c = '\t' || c = '\n' || c = '\x0b' || c = '\x0c' || c = '\r'

/-- The digit-run part of strtol base 10: value of the leading decimal digits,
`none` when no digit is consumed (endptr == start). -/
def digitsVal (l : List Char) : Option Nat :=
  let ds := l.takeWhile Char.isDigit
  if ds.isEmpty then none
  else some (ds.foldl (fun n c => n * 10 + (c.toNat - 48)) 0)

/-- strtol(p, &endptr, 10): skip whitespace, optional sign, decimal digits.
Returns `none` exactly when endptr == p (no conversion). Overflow clamping to
LONG_MAX is not modelled; it cannot change any comparison with 1 made below. -/
def strtol10 (p : List Char) : Option Int :=
  let q := p.dropWhile c_isspace
  match q with
  | [] => none
  | c :: rest =>
    if c = '-' then (digitsVal rest).map (fun n => -(n : Int))
    else if c = '+' then (digitsVal rest).map (fun n => (n : Int))
    else (digitsVal q).map (fun n => (n : Int))

/-- strncasecmp(line, "numscreens", 10) == 0. -/
def line_matches_numscreens (l : List Char) : Bool :=
  (l.take 10).map Char.toLower = "numscreens".toList

/-- The fgets loop body of game_has_multiple_screens: find the first line whose
first 10 characters case-insensitively match "numscreens", then parse the value
after it; the loop breaks at that line whatever the parse result. -/
def ghms_scan : List String → Bool
  | [] => false
  | l :: rest =>
    if line_matches_numscreens l.toList then
      let p := (l.toList.drop 10).dropWhile c_isspace
      match p with
      | [] => false
      | _ =>
        match strtol10 p with
        | some v => decide (v > 1)
        | none => false
    else ghms_scan rest

/-- helpers.c game_has_multiple_screens, over the modelled ini file content. -/
def game_has_multiple_screens (ini : Option (List String)) : Bool :=
  match ini with
  | none => false
  | some lines => ghms_scan lines

/-! ## Compositor (helpers.c scale_and_blit_to_xrgb)

Two views of the same double loop: the list of source coordinates it
dereferences, and the framebuffer transformation it performs.  The
framebuffer is a total function from flat uint32 pixel index to value. -/

/-- The (src_x, src_y) coordinate pairs read by the loops of
scale_and_blit_to_xrgb, in loop order. -/
def scale_and_blit_src_reads (src_w src_h dst_w dst_h dest_x dest_y : Int) :
    List (Int × Int) :=
  let dst_x0 : Int := if dest_x ≥ 0 then dest_x else 0
  let dst_y0 : Int := if dest_y ≥ 0 then dest_y else 0
  let region_w := dst_w - dst_x0
  let region_h := dst_h - dst_y0
  if region_w ≤ 0 ∨ region_h ≤ 0 then []
  else
    (List.range region_h.toNat).flatMap (fun y =>
      let src_y := (y * src_h.toNat) / region_h.toNat
      (List.range region_w.toNat).map (fun x =>
        let src_x := (x * src_w.toNat) / region_w.toNat
        ((src_x : Int), (src_y : Int))))

/-- helpers.c scale_and_blit_to_xrgb as a framebuffer transformation.  The
source is a byte array (Nat → Nat); the destination is a uint32 pixel array.
The loop indices are natural numbers after the sign guards, exactly as the
C loops run them for the in-range parameters the claims quantify over. -/
def scale_and_blit_to_xrgb (src : Nat → Nat) (src_w src_h : Int)
    (dst : Nat → Nat) (dst_w dst_h dst_stride dest_x dest_y : Int) :
    Nat → Nat :=
  let dst_x0 : Int := if dest_x ≥ 0 then dest_x else 0
  let dst_y0 : Int := if dest_y ≥ 0 then dest_y else 0
  let region_w := dst_w - dst_x0
  let region_h := dst_h - dst_y0
  if region_w ≤ 0 ∨ region_h ≤ 0 then dst
  else
    (List.range region_h.toNat).foldl (fun d y =>
      let src_y := (y * src_h.toNat) / region_h.toNat
      (List.range region_w.toNat).foldl (fun d2 x =>
        let src_x := (x * src_w.toNat) / region_w.toNat
        let base := (src_y * src_w.toNat + src_x) * 4
        let r := src base
        let g := src (base + 1)
        let b := src (base + 2)
        let pixel := (r <<< 16) ||| (g <<< 8) ||| b
        Function.update d2
          ((dst_y0.toNat + y) * dst_stride.toNat + dst_x0.toNat + x) pixel) d)
      dst

/-- The memset in show_default_marquee / the ROM branch of main: clear the
bottom half of the framebuffer (byte rows dest_y = vdisplay/2 .. vdisplay,
i.e. flat pixel indices dest_y*stride_pixels .. vdisplay*stride_pixels). -/
def clear_bottom_half (fb : Nat → Nat) (fb_h sp : Int) : Nat → Nat :=
  fun i =>
    if (fb_h / 2).toNat * sp.toNat ≤ i ∧ i < fb_h.toNat * sp.toNat then 0
    else fb i

/-! ## DRM master arbitration (dmarquees.c)

Kernel-side mastership is a singly-ownable right.  DRM semantics:
DRM_IOCTL_SET_MASTER succeeds iff no other process holds master (and makes
the caller master); DRM_IOCTL_DROP_MASTER succeeds iff the caller is master
(it fails with EINVAL otherwise). -/

structure DrmState where
  otherMaster : Bool
  weMaster : Bool
deriving DecidableEq

/-- drmSetMaster: succeeds iff no other process holds master. -/
def drmSetMaster (ds : DrmState) : Bool × DrmState :=
  if ds.otherMaster then (false, ds)
  else (true, { ds with weMaster := true })

/-- drmDropMaster: succeeds iff this process is master. -/
def drmDropMaster (ds : DrmState) : Bool × DrmState :=
  if ds.weMaster then (true, { ds with weMaster := false })
  else (false, ds)

/-- dmarquees.c is_drm_master_held_by_other: a non-committing probe that
acquires mastership and immediately releases it; reports `true` when the
acquisition failed (another process holds master). -/
def is_drm_master_held_by_other (ds : DrmState) : Bool × DrmState :=
  match drmSetMaster ds with
  | (true, ds1) => (false, (drmDropMaster ds1).2)
  | (false, ds1) => (true, ds1)

inductive ArbEvent
  | setMasterOk
  | setMasterFail
  | commitAttempt (ok : Bool)
  | dropAttempt (ok : Bool)
deriving DecidableEq

structure ArbResult where
  crtcSuccess : Bool
  drm : DrmState
  gm : Bool
  needsReset : Bool
  trace : List ArbEvent
deriving DecidableEq

/-- dmarquees.c try_reset_crtc: acquire master, commit the framebuffer via
drmModeSetCrtc, always attempt to drop master, with the g_is_master and
g_needs_crtc_reset global updates of the source.  `crtcOk` is the outcome
oracle for drmModeSetCrtc (it can fail for device reasons even as master);
the log-throttling branches only write to stderr and carry no state that the
claims mention, so they are omitted. -/
def try_reset_crtc (ds : DrmState) (gm needsReset crtcOk : Bool) : ArbResult :=
  match drmSetMaster ds with
  | (false, ds1) => ⟨false, ds1, gm, needsReset, [ArbEvent.setMasterFail]⟩
  | (true, ds1) =>
    let gm1 := true
    let nr := if crtcOk then false else needsReset
    let dropRes := drmDropMaster ds1
    let gm2 := if dropRes.1 then false else gm1
    ⟨crtcOk, dropRes.2, gm2, nr,
      [ArbEvent.setMasterOk, ArbEvent.commitAttempt crtcOk,
       ArbEvent.dropAttempt dropRes.1]⟩

/-! ## The idle (no-command) branch of the main loop (dmarquees.c 485-523)

State of the retry/holdoff machinery; `prevHeld` is the static local
prev_master_held of main.  The probe result (`masterHeld`) and the
try_reset_crtc outcome (`resetOk`) are inputs, since they depend on the
kernel state at that instant. -/

structure LoopState where
  needsReset : Bool
  inHold : Bool
  holdStart : Int
  prevHeld : Bool
deriving DecidableEq

structure IdleResult where
  st : LoopState
  probed : Bool
  attempted : Bool
deriving DecidableEq

/-- One execution of the n <= 0 branch of the main loop: while holding off,
probe master availability and end the hold on an unavailable-to-available
edge or on timeout; only once out of hold, call try_reset_crtc. -/
def idle_step (mode : FrontendMode) (s : LoopState) (now : Int)
    (masterHeld resetOk : Bool) : IdleResult :=
  if s.needsReset = true ∧ mode = FrontendMode.eRA then
    let s1 :=
      if s.inHold then
        let s2 :=
          if s.prevHeld = true ∧ masterHeld = false then { s with inHold := false }
          else if now - s.holdStart ≥ RA_INIT_HOLD_SEC then { s with inHold := false }
          else s
        { s2 with prevHeld := masterHeld }
      else s
    if s1.inHold = false then
      ⟨if resetOk then { s1 with needsReset := false } else s1, s.inHold, true⟩
    else
      ⟨s1, s.inHold, false⟩
  else ⟨s, false, false⟩

/-! ## Command handling (dmarquees.c main loop, lines 526-628)

The framebuffer effects of one command are recorded as a trace, interpreted
on the pixel array by applyEffect below.  External file-system facts are an
environment. -/

inductive Effect
  | clearBottom
  | blitDefault (name : String)
  | blitRom (key : String)
deriving DecidableEq

structure CmdEnv where
  iniFile : String → Option (List String)
  romStatOk : String → Bool
  romDecodeOk : String → Bool
  defDecodeOk : String → Bool

structure MainState where
  mode : FrontendMode
  running : Bool
  needsReset : Bool
  inHold : Bool
  holdStart : Int
  currentImage : String
deriving DecidableEq

/-- dmarquees.c handle_fb_update_for_ra_mode: in RA mode without mastership,
record the image, arm the deferred commit retry and enter the hold window. -/
def handle_fb_update_for_ra_mode (gm : Bool) (now : Int) (desc : String)
    (s : MainState) : MainState :=
  if s.mode = FrontendMode.eRA ∧ gm = false then
    { s with currentImage := desc, holdStart := now, inHold := true,
             needsReset := true }
  else s

/-- dmarquees.c show_default_marquee: clear the bottom half, load the default
image for the current mode, blit it when the load succeeds, then run the
RA-mode update hook. -/
def show_default_marquee (fbMapped : Bool) (defDecodeOk : String → Bool)
    (gm : Bool) (now : Int) (s : MainState) : MainState × List Effect :=
  if fbMapped = false then (s, [])
  else
    let name := default_marquee_name_for s.mode
    if defDecodeOk name = true then
      (handle_fb_update_for_ra_mode gm now name s,
       [Effect.clearBottom, Effect.blitDefault name])
    else (s, [Effect.clearBottom])

/-- The ROM-shortname tail of the main loop (lines 572-628): exclusion-policy
check, stat, decode, clear-and-blit, RA-mode update hook. -/
def handleRomKey (env : CmdEnv) (fbMapped gm : Bool) (now : Int)
    (s : MainState) (cmd : String) : MainState × List Effect :=
  if game_has_multiple_screens (env.iniFile cmd) = true then (s, [])
  else if env.romStatOk cmd = false then
    show_default_marquee fbMapped env.defDecodeOk gm now s
  else if env.romDecodeOk cmd = false then
    show_default_marquee fbMapped env.defDecodeOk gm now s
  else
    let effs := if fbMapped = true then [Effect.clearBottom, Effect.blitRom cmd]
                else ([] : List Effect)
    (handle_fb_update_for_ra_mode gm now cmd s, effs)

/-- One non-empty trimmed command of the main loop: clear the retry flags,
then dispatch on toCommandType.  CMD_RESET has no case in the source's
switch, so it falls into the default label and is handled as a ROM key.
The CMD_EXIT case clears running and then breaks out of the switch only, so
control falls through to the ROM-shortname handling as well. -/
def handleCommand (env : CmdEnv) (fbMapped gm : Bool) (now : Int)
    (s0 : MainState) (cmd : String) : MainState × List Effect :=
  let s := { s0 with needsReset := false, currentImage := "", inHold := false }
  match toCommandType cmd with
  | CommandType.CMD_RA =>
    show_default_marquee fbMapped env.defDecodeOk gm now
      { s with mode := FrontendMode.eRA }
  | CommandType.CMD_SA =>
    show_default_marquee fbMapped env.defDecodeOk gm now
      { s with mode := FrontendMode.eSA }
  | CommandType.CMD_NA =>
    show_default_marquee fbMapped env.defDecodeOk gm now
      { s with mode := FrontendMode.eNA }
  | CommandType.CMD_EXIT =>
    handleRomKey env fbMapped gm now { s with running := false } cmd
  | CommandType.CMD_CLEAR => show_default_marquee fbMapped env.defDecodeOk gm now s
  | CommandType.CMD_RESET => handleRomKey env fbMapped gm now s cmd
  | CommandType.CMD_ROM => handleRomKey env fbMapped gm now s cmd

/-- Interpretation of one recorded effect on the framebuffer.  Both blit call
sites in the source pass dest_x = 0 and dest_y = vdisplay/2.  `defImg` and
`romImg` give the decoded pixels and dimensions of the named image. -/
def applyEffect (defImg romImg : String → (Nat → Nat) × Int × Int)
    (fb_w fb_h sp : Int) (fb : Nat → Nat) : Effect → (Nat → Nat)
  | Effect.clearBottom => clear_bottom_half fb fb_h sp
  | Effect.blitDefault name =>
    let im := defImg name
    scale_and_blit_to_xrgb im.1 im.2.1 im.2.2 fb fb_w fb_h sp 0 (fb_h / 2)
  | Effect.blitRom key =>
    let im := romImg key
    scale_and_blit_to_xrgb im.1 im.2.1 im.2.2 fb fb_w fb_h sp 0 (fb_h / 2)

/-! ## Presentation surface lifecycle (dmarquees.c create_dumb_fb /
destroy_dumb_fb)

The three globals fb_id, fb_map, dumb_handle; handles are represented as
Nat with 0 = null, the mapping as a Bool.  ioctl outcomes are oracles. -/

structure FBRes where
  fb_id : Nat
  mapped : Bool
  dumb_handle : Nat
deriving DecidableEq

inductive TdOp
  | rmFB
  | unmapMem
  | destroyDumb
deriving DecidableEq

/-- dmarquees.c destroy_dumb_fb: guarded drmModeRmFB, then guarded munmap,
then guarded DRM_IOCTL_MODE_DESTROY_DUMB, each zeroing its handle. -/
def destroy_dumb_fb (s : FBRes) : FBRes × List TdOp :=
  let r1 := if s.fb_id ≠ 0 then ({ s with fb_id := 0 }, [TdOp.rmFB])
            else (s, ([] : List TdOp))
  let r2 := if r1.1.mapped then ({ r1.1 with mapped := false }, [TdOp.unmapMem])
            else (r1.1, ([] : List TdOp))
  let r3 := if r2.1.dumb_handle ≠ 0 then
              ({ r2.1 with dumb_handle := 0 }, [TdOp.destroyDumb])
            else (r2.1, ([] : List TdOp))
  (r3.1, r1.2 ++ r2.2 ++ r3.2)

structure CreateOracle where
  createOk : Bool
  mapReqOk : Bool
  mmapOk : Bool
  addFbOk : Bool
deriving DecidableEq

inductive ResEvent
  | acqDumb
  | acqMap
  | acqFB
  | relMap
  | relDumb
deriving DecidableEq

/-- dmarquees.c create_dumb_fb with its acquire/release events:
CREATE_DUMB, MAP_DUMB offset request, mmap, drmModeAddFB.  On MAP_DUMB or
mmap failure it returns -1 with the dumb allocation still live in the
globals; on drmModeAddFB failure it munmaps first but likewise keeps the
dumb allocation.  1 stands for any nonzero handle. -/
def create_dumb_fb (o : CreateOracle) : Int × FBRes × List ResEvent :=
  if o.createOk = false then (-1, ⟨0, false, 0⟩, [])
  else if o.mapReqOk = false then (-1, ⟨0, false, 1⟩, [ResEvent.acqDumb])
  else if o.mmapOk = false then (-1, ⟨0, false, 1⟩, [ResEvent.acqDumb])
  else if o.addFbOk = false then
    (-1, ⟨0, false, 1⟩, [ResEvent.acqDumb, ResEvent.acqMap, ResEvent.relMap])
  else (0, ⟨1, true, 1⟩, [ResEvent.acqDumb, ResEvent.acqMap, ResEvent.acqFB])

/-! ## Theorems -/

/-- C2: after every call to try_reset_crtc the process does not hold exclusive
display control: a successful acquisition is always paired with a release
attempt (whatever the drmModeSetCrtc outcome), and a failed acquisition
leaves the mastership state untouched, so it never leaves control held. -/
theorem c2_arbitration_never_leaves_master_held
    (ds : DrmState) (gm needsReset crtcOk : Bool)
    (hwf : ds.otherMaster = true → ds.weMaster = false) :
    (try_reset_crtc ds gm needsReset crtcOk).drm.weMaster = false ∧
    (ArbEvent.setMasterOk ∈ (try_reset_crtc ds gm needsReset crtcOk).trace →
      ∃ b, ArbEvent.dropAttempt b ∈ (try_reset_crtc ds gm needsReset crtcOk).trace) ∧
    (ArbEvent.setMasterFail ∈ (try_reset_crtc ds gm needsReset crtcOk).trace →
      (try_reset_crtc ds gm needsReset crtcOk).drm = ds) := by
  rcases ds with ⟨o, w⟩
  cases o <;> cases w <;> cases crtcOk <;>
    simp_all [try_reset_crtc, drmSetMaster, drmDropMaster]

/-- C2 witness: a concrete arbitration attempt with free mastership ends with
control released. -/
theorem c2_arbitration_witness :
    (try_reset_crtc ⟨false, false⟩ false false true).drm.weMaster = false :=
  (c2_arbitration_never_leaves_master_held ⟨false, false⟩ false false true
    (by decide)).1

/-- C4 counterexample: command classification is case-sensitive in the code:
the input "clear" is classified as a content-selector key (CMD_ROM) while its
case variant "CLEAR" is classified CMD_CLEAR, so the classification is not
invariant under case changes. -/
theorem c4_case_insensitive_counterexample :
    toCommandType "clear" = CommandType.CMD_ROM ∧
    toCommandType "CLEAR" = CommandType.CMD_CLEAR ∧
    CommandType.CMD_ROM ≠ CommandType.CMD_CLEAR := by
  decide

/-- C4 amended: command tokens are recognized case-sensitively: an input is a
content-selector key (CMD_ROM) exactly when it differs from every one of the
six exact uppercase tokens. -/
theorem c4_classification_case_sensitive (s : String) :
    toCommandType s = CommandType.CMD_ROM ↔
      (s ≠ "EXIT" ∧ s ≠ "CLEAR" ∧ s ≠ "RA" ∧ s ≠ "SA" ∧ s ≠ "NA" ∧
       s ≠ "RESET") := by
  unfold toCommandType
  split_ifs <;> simp_all

/-- C4 witness: the lowercase variant of CLEAR is a content-selector key. -/
theorem c4_classification_witness :
    toCommandType "clear" = CommandType.CMD_ROM :=
  (c4_classification_case_sensitive "clear").2 (by decide)

/-- Environment for the C5 evaluation: no ini files, no ROM images on disk,
default marquee decodes. -/
def c5Env : CmdEnv :=
  ⟨fun _ => none, fun _ => false, fun _ => false, fun _ => true⟩

/-- C5: the code classifies "RESET" as CMD_RESET, but main's switch has no
CMD_RESET case, so the command falls into the default label and is handled as
a ROM shortname: with RESET.png absent it falls back to the default marquee
instead of forcing a commit retry. -/
theorem c5_reset_handled_as_rom_key :
    toCommandType "RESET" = CommandType.CMD_RESET ∧
    handleCommand c5Env true false 0
        ⟨FrontendMode.eNA, true, false, false, 0, ""⟩ "RESET" =
      (⟨FrontendMode.eNA, true, false, false, 0, ""⟩,
       [Effect.clearBottom, Effect.blitDefault DEF_MARQUEE_NAME]) := by
  decide

/-- C8 counterexample: teardown releases in the order unregister (drmModeRmFB),
unmap (munmap), free (DESTROY_DUMB) -- not in the claimed order
unmap, unregister, free. -/
theorem c8_teardown_order_counterexample :
    (destroy_dumb_fb ⟨1, true, 1⟩).2 =
      [TdOp.rmFB, TdOp.unmapMem, TdOp.destroyDumb] ∧
    [TdOp.rmFB, TdOp.unmapMem, TdOp.destroyDumb] ≠
      [TdOp.unmapMem, TdOp.rmFB, TdOp.destroyDumb] := by
  decide

/-- C8 amended: teardown releases in the order unregister, then unmap, then
free the allocation, and a second teardown call releases nothing and changes
nothing (idempotent via the null/zero-handle guards). -/
theorem c8_teardown_order_and_idempotence (s : FBRes) :
    (s.fb_id ≠ 0 → s.mapped = true → s.dumb_handle ≠ 0 →
      (destroy_dumb_fb s).2 = [TdOp.rmFB, TdOp.unmapMem, TdOp.destroyDumb]) ∧
    (destroy_dumb_fb (destroy_dumb_fb s).1).2 = [] ∧
    (destroy_dumb_fb (destroy_dumb_fb s).1).1 = (destroy_dumb_fb s).1 := by
  rcases s with ⟨f, m, d⟩
  by_cases hf : f = 0 <;> by_cases hd : d = 0 <;> cases m <;>
    simp_all [destroy_dumb_fb]

/-- C8 witness: the fully populated surface is torn down in unregister, unmap,
free order. -/
theorem c8_teardown_witness :
    (destroy_dumb_fb ⟨1, true, 1⟩).2 =
      [TdOp.rmFB, TdOp.unmapMem, TdOp.destroyDumb] :=
  (c8_teardown_order_and_idempotence ⟨1, true, 1⟩).1 (by decide) (by decide)
    (by decide)

/-- C9 counterexample: when the map-offset request fails right after a
successful allocation, create_dumb_fb returns the error with the dumb-buffer
allocation still unreleased, so not every already-acquired sub-resource is
released on partial failure. -/
theorem c9_alloc_leak_counterexample :
    (create_dumb_fb ⟨true, false, true, true⟩).1 = -1 ∧
    ResEvent.acqDumb ∈ (create_dumb_fb ⟨true, false, true, true⟩).2.2 ∧
    ResEvent.relDumb ∉ (create_dumb_fb ⟨true, false, true, true⟩).2.2 := by
  decide

/-- C9 amended: on any failing path of create_dumb_fb, an acquired memory
mapping is unmapped before the error returns, but the dumb-buffer allocation
is never released inside create_dumb_fb; its handle stays recorded in the
globals (released only by the later teardown or device close). -/
theorem c9_failure_releases_mapping_not_alloc (o : CreateOracle)
    (herr : (create_dumb_fb o).1 = -1) :
    ResEvent.relDumb ∉ (create_dumb_fb o).2.2 ∧
    (ResEvent.acqMap ∈ (create_dumb_fb o).2.2 →
      ResEvent.relMap ∈ (create_dumb_fb o).2.2) ∧
    (o.createOk = true → (create_dumb_fb o).2.1.dumb_handle ≠ 0) := by
  rcases o with ⟨c, m, mm, a⟩
  cases c <;> cases m <;> cases mm <;> cases a <;>
    simp_all [create_dumb_fb]

/-- C9 witness: with registration failing after a successful mmap, the mapping
is released before the error returns. -/
theorem c9_failure_cleanup_witness :
    ResEvent.relMap ∈ (create_dumb_fb ⟨true, true, true, false⟩).2.2 :=
  (c9_failure_releases_mapping_not_alloc ⟨true, true, true, false⟩
    (by decide)).2.1 (by decide)

/-- C3: once the holdoff window is entered, an acquisition attempt
(try_reset_crtc) happens in an idle step only when the availability edge
(master was held, now available) is observed or the timeout has elapsed;
the probe is exactly the action taken while the holdoff machinery runs, and
it never runs outside the holdoff window. -/
theorem c3_holdoff_gates_acquisition (mode : FrontendMode) (s : LoopState)
    (now : Int) (masterHeld resetOk : Bool) :
    (s.inHold = true →
      (idle_step mode s now masterHeld resetOk).attempted = true →
      (s.prevHeld = true ∧ masterHeld = false) ∨
        now - s.holdStart ≥ RA_INIT_HOLD_SEC) ∧
    ((idle_step mode s now masterHeld resetOk).probed = true →
      s.inHold = true ∧ s.needsReset = true ∧ mode = FrontendMode.eRA) ∧
    (s.inHold = true → s.needsReset = true → mode = FrontendMode.eRA →
      (idle_step mode s now masterHeld resetOk).probed = true) := by
  rcases s with ⟨nr, ih, hs, ph⟩
  dsimp only [idle_step]
  split_ifs <;> simp_all

/-- C3 witness: holding off with the edge observed (master was held, now
free), the step runs the probe. -/
theorem c3_holdoff_witness :
    (idle_step FrontendMode.eRA ⟨true, true, 0, true⟩ 10 false true).probed =
      true :=
  (c3_holdoff_gates_acquisition FrontendMode.eRA ⟨true, true, 0, true⟩ 10
    false true).2.2 (by decide) (by decide) (by decide)

/-- C6: a content-selector key that is not excluded and whose image is missing
or fails to decode makes the daemon show the default marquee of the current
affinity: the bottom half is cleared and the default image blitted, the loop
keeps running and the affinity is unchanged. -/
theorem c6_missing_image_falls_back_to_default (env : CmdEnv) (gm : Bool)
    (now : Int) (s : MainState) (cmd : String)
    (hrom : toCommandType cmd = CommandType.CMD_ROM)
    (hexcl : game_has_multiple_screens (env.iniFile cmd) = false)
    (hmiss : env.romStatOk cmd = false ∨ env.romDecodeOk cmd = false)
    (hdef : env.defDecodeOk (default_marquee_name_for s.mode) = true) :
    (handleCommand env true gm now s cmd).2 =
      [Effect.clearBottom,
       Effect.blitDefault (default_marquee_name_for s.mode)] ∧
    (handleCommand env true gm now s cmd).1.running = s.running ∧
    (handleCommand env true gm now s cmd).1.mode = s.mode := by
  unfold handleCommand handleRomKey show_default_marquee
    handle_fb_update_for_ra_mode
  rw [hrom]
  rcases hmiss with h | h
  · simp only [hexcl, h]
    split_ifs <;> simp_all
  · by_cases hstat : env.romStatOk cmd = false <;>
      simp only [hexcl, h, hstat] <;> split_ifs <;> simp_all

/-- C6 witness: the key xyz123 with no image on disk falls back to the
Standalone default marquee. -/
theorem c6_fallback_witness :
    (handleCommand ⟨fun _ => none, fun _ => false, fun _ => false,
        fun _ => true⟩ true false 0
      ⟨FrontendMode.eSA, true, false, false, 0, ""⟩ "xyz123").2 =
      [Effect.clearBottom,
       Effect.blitDefault (default_marquee_name_for FrontendMode.eSA)] :=
  (c6_missing_image_falls_back_to_default
    ⟨fun _ => none, fun _ => false, fun _ => false, fun _ => true⟩ false 0
    ⟨FrontendMode.eSA, true, false, false, 0, ""⟩ "xyz123" (by decide)
    (by decide) (Or.inl (by decide)) (by decide)).1

/-- C7: a content-selector key that the exclusion policy marks as excluded
(numscreens > 1 in its ini file) produces no framebuffer effect at all: no
clear, no blit, and no commit retry is armed (the retry flags end cleared),
and the loop keeps running. -/
theorem c7_excluded_key_no_surface_change (env : CmdEnv) (fbMapped gm : Bool)
    (now : Int) (s : MainState) (cmd : String)
    (hrom : toCommandType cmd = CommandType.CMD_ROM)
    (hexcl : game_has_multiple_screens (env.iniFile cmd) = true) :
    (handleCommand env fbMapped gm now s cmd).2 = [] ∧
    (handleCommand env fbMapped gm now s cmd).1.needsReset = false ∧
    (handleCommand env fbMapped gm now s cmd).1.inHold = false ∧
    (handleCommand env fbMapped gm now s cmd).1.running = s.running := by
  unfold handleCommand handleRomKey
  rw [hrom]
  simp [hexcl]

/-- C7 witness: a key whose ini file reports numscreens 2 leaves the effect
trace empty. -/
theorem c7_excluded_witness :
    (handleCommand ⟨fun _ => some ["numscreens 2"], fun _ => true,
        fun _ => true, fun _ => true⟩ true false 0
      ⟨FrontendMode.eNA, true, false, false, 0, ""⟩ "darius").2 = [] :=
  (c7_excluded_key_no_surface_change
    ⟨fun _ => some ["numscreens 2"], fun _ => true, fun _ => true,
     fun _ => true⟩ true false 0
    ⟨FrontendMode.eNA, true, false, false, 0, ""⟩ "darius" (by decide)
    (by decide)).1

/-- Nearest-neighbor index bound: for a loop index x < W and a positive source
dimension S, the scaled source index x * S / W stays below S. -/
lemma read_coord_lt (x W S : Nat) (hx : x < W) (hS : 0 < S) :
    x * S / W < S := by
  have hW : 0 < W := Nat.lt_of_le_of_lt (Nat.zero_le x) hx
  have h1 : x * S < S * W := by
    have h2 := mul_lt_mul_of_pos_right hx hS
    simpa [Nat.mul_comm] using h2
  exact (Nat.div_lt_iff_lt_mul hW).mpr h1

/-- C1: every source coordinate dereferenced by scale_and_blit_to_xrgb lies
strictly inside the source image, for every source with sw, sh ≥ 1, every
destination with dst_w, dst_h > 0 and stride ≥ dst_w, and every offset pair:
the compositor never reads past the source bounds. -/
theorem c1_blit_reads_within_source
    (src_w src_h dst_w dst_h stride dest_x dest_y : Int)
    (hsw : 1 ≤ src_w) (hsh : 1 ≤ src_h) (hdw : 0 < dst_w) (hdh : 0 < dst_h)
    (hst : dst_w ≤ stride) :
    ∀ p ∈ scale_and_blit_src_reads src_w src_h dst_w dst_h dest_x dest_y,
      0 ≤ p.1 ∧ p.1 < src_w ∧ 0 ≤ p.2 ∧ p.2 < src_h := by
  intro p hp
  simp only [scale_and_blit_src_reads] at hp
  by_cases hg : dst_w - (if dest_x ≥ 0 then dest_x else 0) ≤ 0 ∨
      dst_h - (if dest_y ≥ 0 then dest_y else 0) ≤ 0
  · rw [if_pos hg] at hp
    simp at hp
  · rw [if_neg hg] at hp
    rw [List.mem_flatMap] at hp
    obtain ⟨y, hy, hp⟩ := hp
    rw [List.mem_map] at hp
    obtain ⟨x, hx, rfl⟩ := hp
    rw [List.mem_range] at hy hx
    have hsw0 : (0 : Int) ≤ src_w := by omega
    have hsh0 : (0 : Int) ≤ src_h := by omega
    have hSW : 0 < src_w.toNat := by omega
    have hSH : 0 < src_h.toNat := by omega
    have hxlt := read_coord_lt x _ _ hx hSW
    have hylt := read_coord_lt y _ _ hy hSH
    refine ⟨Int.natCast_nonneg _, ?_, Int.natCast_nonneg _, ?_⟩
    · have hc : ((x * src_w.toNat / _ : Nat) : Int) < (src_w.toNat : Int) :=
        Int.ofNat_lt.mpr hxlt
      rwa [Int.toNat_of_nonneg hsw0] at hc
    · have hc : ((y * src_h.toNat / _ : Nat) : Int) < (src_h.toNat : Int) :=
        Int.ofNat_lt.mpr hylt
      rwa [Int.toNat_of_nonneg hsh0] at hc

/-- C1 witness: a concrete read coordinate of a 3x2 source scaled into a 4x4
destination is within bounds. -/
theorem c1_blit_reads_witness :
    (0 : Int) ≤ 0 ∧ (0 : Int) < 3 ∧ (0 : Int) ≤ 0 ∧ (0 : Int) < 2 :=
  c1_blit_reads_within_source 3 2 4 4 4 0 0 (by decide) (by decide)
    (by decide) (by decide) (by decide) ((0 : Int), (0 : Int)) (by decide)

/-- A fold whose step never changes the value at index i leaves index i
unchanged. -/
lemma foldl_fun_eq {β : Type} (l : List β) (f : (Nat → Nat) → β → Nat → Nat)
    (i : Nat) (h : ∀ d b, f d b i = d i) :
    ∀ d, (l.foldl f d) i = d i := by
  induction l with
  | nil => intro d; rfl
  | cons b t ih => intro d; rw [List.foldl_cons, ih, h]

/-- The blit writes only at flat indices at or below the destination row
dest_y: any index in an earlier row is untouched. -/
lemma blit_preserves_top (src : Nat → Nat) (sw sh : Int) (dst : Nat → Nat)
    (dw dh sp dx dy : Int) (i : Nat) (hdy : dy ≥ 0)
    (hi : i < dy.toNat * sp.toNat) :
    scale_and_blit_to_xrgb src sw sh dst dw dh sp dx dy i = dst i := by
  simp only [scale_and_blit_to_xrgb, if_pos hdy]
  by_cases hg : dw - (if dx ≥ 0 then dx else 0) ≤ 0 ∨ dh - dy ≤ 0
  · rw [if_pos hg]
  · rw [if_neg hg]
    refine foldl_fun_eq _ _ i (fun d y => ?_) dst
    refine foldl_fun_eq _ _ i (fun d2 x => ?_) d
    apply Function.update_noteq
    have hmul : dy.toNat * sp.toNat ≤ (dy.toNat + y) * sp.toNat :=
      Nat.mul_le_mul_right _ (Nat.le_add_right _ y)
    omega

/-- The bottom-half memset leaves every index of an earlier row unchanged. -/
lemma clear_bottom_preserves_top (fb : Nat → Nat) (fb_h sp : Int) (i : Nat)
    (hi : i < (fb_h / 2).toNat * sp.toNat) :
    clear_bottom_half fb fb_h sp i = fb i := by
  unfold clear_bottom_half
  rw [if_neg]
  omega

/-- Each recorded framebuffer effect preserves every pixel whose row is above
vdisplay / 2. -/
lemma applyEffect_preserves_top (defImg romImg : String → (Nat → Nat) × Int × Int)
    (fb_w fb_h sp : Int) (fb : Nat → Nat) (e : Effect) (i : Nat)
    (hh : 0 ≤ fb_h) (hsp : 0 < sp)
    (hi : i / sp.toNat < (fb_h / 2).toNat) :
    applyEffect defImg romImg fb_w fb_h sp fb e i = fb i := by
  have hspN : 0 < sp.toNat := by omega
  have hdy : (0 : Int) ≤ fb_h / 2 := by positivity
  have hiN : i < (fb_h / 2).toNat * sp.toNat :=
    (Nat.div_lt_iff_lt_mul hspN).mp hi
  cases e with
  | clearBottom => exact clear_bottom_preserves_top fb fb_h sp i hiN
  | blitDefault name =>
    exact blit_preserves_top _ _ _ fb fb_w fb_h sp 0 _ i hdy hiN
  | blitRom key =>
    exact blit_preserves_top _ _ _ fb fb_w fb_h sp 0 _ i hdy hiN

/-- C10: every command handled by the main loop updates only the bottom half
of the framebuffer: applying the command's framebuffer effects leaves every
pixel whose row is strictly above vdisplay / 2 unchanged. -/
theorem c10_commands_write_only_bottom_half (env : CmdEnv) (fbMapped gm : Bool)
    (now : Int) (s : MainState) (cmd : String)
    (defImg romImg : String → (Nat → Nat) × Int × Int)
    (fb_w fb_h sp : Int) (fb : Nat → Nat) (i : Nat)
    (hsp : 0 < sp) (hh : 0 ≤ fb_h)
    (hi : i / sp.toNat < (fb_h / 2).toNat) :
    ((handleCommand env fbMapped gm now s cmd).2.foldl
        (applyEffect defImg romImg fb_w fb_h sp) fb) i = fb i :=
  foldl_fun_eq _ _ i
    (fun d e => applyEffect_preserves_top defImg romImg fb_w fb_h sp d e i hh
      hsp hi) fb

/-- C10 witness: a CLEAR command on a 4x4 mode with stride 4 leaves pixel 0
(top-left, above the half line) unchanged. -/
theorem c10_bottom_half_witness :
    ((handleCommand ⟨fun _ => none, fun _ => false, fun _ => false,
          fun _ => true⟩ true false 0
        ⟨FrontendMode.eNA, true, false, false, 0, ""⟩ "CLEAR").2.foldl
      (applyEffect (fun _ => (fun _ => 5, 2, 2)) (fun _ => (fun _ => 5, 2, 2))
        4 4 4) id) 0 = id 0 :=
  c10_commands_write_only_bottom_half
    ⟨fun _ => none, fun _ => false, fun _ => false, fun _ => true⟩ true false 0
    ⟨FrontendMode.eNA, true, false, false, 0, ""⟩ "CLEAR"
    (fun _ => (fun _ => 5, 2, 2)) (fun _ => (fun _ => 5, 2, 2)) 4 4 4 id 0
    (by decide) (by decide) (by decide)

end Dmarquees
